import Mathlib

/-!
Shallow embedding of `strix/telemetry/checkpoint.py` (the Checkpoint Store).

The Python module persists a JSON checkpoint file `checkpoint.json` inside a
run directory, via `save_checkpoint`, `load_checkpoint`, `can_resume` and
`delete_checkpoint`.  We embed:

* JSON values as the inductive `Json` (Python's `json.load` result);
* the relevant filesystem state of one run directory as `FsState`, holding the
  contents of `checkpoint.json` and of the sibling temporary file
  `checkpoint.tmp` (the only two paths the module touches);
* Python exceptions as `PyErr`; a computation that may raise returns
  `Except PyErr _`.  An exception raised inside a `try` block is swallowed
  exactly when its class is in the corresponding `except` tuple of the source.
* I/O failures and process interruption as explicit fault/interruption
  parameters threaded through `save_checkpoint`.

Python semantics modelled faithfully where the claims depend on it:
`dict.get` on a non-dict raises `AttributeError`; `len` on a non-sized value
raises `TypeError`; `x != 1` uses numeric equality, under which `True == 1`;
`if not checkpoint:` tests Python truthiness.
-/

namespace Checkpoint

/-- JSON values, as produced by Python's `json.load`. -/
inductive Json where
  | null
  | bool (b : Bool)
  | num (n : Int)
  | str (s : String)
  | arr (elems : List Json)
  | obj (entries : List (String × Json))
deriving Repr, BEq

/-- Python exception classes that appear in the module. -/
inductive PyErr where
  | osError
  | jsonDecodeError
  | keyError
  | typeError
  | valueError
  | runtimeError
  | attributeError
deriving Repr, DecidableEq

/-- Contents of a file on disk, as seen by `open` + `json.load`:
the file may be unreadable (reading raises `OSError`), hold bytes that are
not valid JSON (`json.load` raises `JSONDecodeError`), or parse to a JSON
value. -/
inductive FileData where
  | unreadable
  | invalid
  | valid (content : Json)
deriving Repr, BEq

/-- The filesystem state of one run directory restricted to the two paths the
module touches: `run_dir/checkpoint.json` (the path returned by
`get_checkpoint_path`) and the sibling temporary file `run_dir/checkpoint.tmp`
(`checkpoint_path.with_suffix(".tmp")`).  `none` means the path does not
exist. -/
structure FsState where
  checkpoint_file : Option FileData
  temp_file : Option FileData
deriving Repr, BEq

/-- Path of the checkpoint file for a run: `run_dir / "checkpoint.json"`
(source: `get_checkpoint_path`). -/
def get_checkpoint_path (run_dir : String) : String :=
  run_dir ++ "/checkpoint.json"

/-- Path of the temporary file used by `save_checkpoint`:
`checkpoint_path.with_suffix(".tmp")`, i.e. `run_dir / "checkpoint.tmp"`. -/
def get_temp_path (run_dir : String) : String :=
  run_dir ++ "/checkpoint.tmp"

/-- Lookup in a Python dict represented as an association list
(`d[k]` / `k in d` machinery).  Python dict keys are unique; lookup takes the
first match. -/
def dictGet (entries : List (String × Json)) (key : String) : Option Json :=
  match entries with
  | [] => none
  | (k, v) :: rest => if k = key then some v else dictGet rest key

/-- Python truthiness of a JSON value (`if x:`). -/
def pyTruthy : Json → Bool
  | .null => false
  | .bool b => b
  | .num n => n != 0
  | .str s => s ≠ ""
  | .arr elems => !elems.isEmpty
  | .obj entries => !entries.isEmpty

/-- Python `x.get(key, default)`: returns the mapped value (or the default) on
a dict, and raises `AttributeError` on every non-dict value, which has no
`get` attribute. -/
def pyGet (x : Json) (key : String) (default : Json) : Except PyErr Json :=
  match x with
  | .obj entries => .ok ((dictGet entries key).getD default)
  | _ => .error .attributeError

/-- Python `len(x)`: length of a string, list or dict; raises `TypeError` on
values with no length (`None`, booleans, numbers). -/
def pyLen : Json → Except PyErr Nat
  | .str s => .ok s.length
  | .arr elems => .ok elems.length
  | .obj entries => .ok entries.length
  | _ => .error .typeError

/-- Schema version constant `CHECKPOINT_VERSION = 1`. -/
def CHECKPOINT_VERSION : Int := 1

/-- The test `version != CHECKPOINT_VERSION` on `checkpoint.get("version")`.
Python numeric equality makes `True == 1` (and `False == 0`); every
non-numeric, non-boolean value differs from `1`, as does a missing key
(`None`). -/
def versionMismatch : Option Json → Bool
  | some (.num n) => n != CHECKPOINT_VERSION
  | some (.bool b) => !b
  | _ => true

/-- Embedding of `load_checkpoint(run_dir)`.

Returns `.ok none` for the Python `None`, `.ok (some j)` for a returned
checkpoint dict, and `.error e` when an exception propagates to the caller.
The `try` block catches `(OSError, json.JSONDecodeError, KeyError,
TypeError)`; `AttributeError` — raised by `checkpoint.get("version")` when the
parsed top-level JSON value is not an object — is not in that tuple and
propagates. -/
def load_checkpoint (st : FsState) : Except PyErr (Option Json) :=
  match st.checkpoint_file with
  | none => .ok none
  | some .unreadable => .ok none
  | some .invalid => .ok none
  | some (.valid content) =>
    match content with
    | .obj entries =>
      if versionMismatch (dictGet entries "version") then .ok none
      else if (dictGet entries "scan_config").isNone
              || (dictGet entries "agent_state").isNone then .ok none
      else .ok (some (.obj entries))
    | _ => .error .attributeError

/-- The agent-state argument of `save_checkpoint` (typed `Any` in the source;
in practice a pydantic model).  `model_dump` is the outcome of calling
`agent_state.model_dump(mode='json')`: `.ok j` when it returns the
JSON-representable snapshot `j`, `.error e` when the call raises `e` — in
particular `.error .attributeError` when the object has no `model_dump`
attribute at all.  `has_iteration` records whether the object has an
`iteration` attribute, read by the `logger.info` f-string after the rename. -/
structure AgentState where
  model_dump : Except PyErr Json
  has_iteration : Bool

/-- The checkpoint dict built by `save_checkpoint`:
`{"version": ..., "created_at": ..., "scan_config": ..., "agent_state": ...,
"tracer_data": tracer_data or {}}`. -/
def build_checkpoint (now : String) (scan_config : List (String × Json))
    (dump : Json) (tracer_data : Option (List (String × Json))) : Json :=
  .obj [("version", .num CHECKPOINT_VERSION),
        ("created_at", .str now),
        ("scan_config", .obj scan_config),
        ("agent_state", dump),
        ("tracer_data", .obj (tracer_data.getD []))]

/-- Fault injection for the filesystem steps of `save_checkpoint`:
`ok` — every I/O step succeeds; `openTempFail` — `temp_path.open` raises
`OSError` before anything is written; `writeFail d e` — `json.dump` raises
`e` (e.g. `OSError` on disk full, `TypeError`/`ValueError` on an
unserializable `scan_config`/`tracer_data` value) leaving the temporary file
with whatever bytes `d` were flushed; `renameFail` — the temporary file is
fully written but `temp_path.replace` raises `OSError`. -/
inductive IOFault where
  | ok
  | openTempFail
  | writeFail (leftover : FileData) (e : PyErr)
  | renameFail

/-- Exception classes caught by `save_checkpoint`'s
`except (OSError, RuntimeError, TypeError, ValueError)` clause. -/
def savCatches : PyErr → Bool
  | .osError => true
  | .runtimeError => true
  | .typeError => true
  | .valueError => true
  | _ => false

/-- Result of running a Python procedure returning `None`: the filesystem
state it leaves behind, and the exception propagated to the caller, if any. -/
structure PyRun where
  state : FsState
  raised : Option PyErr
deriving Repr, BEq

/-- Embedding of `save_checkpoint(run_dir, agent_state, scan_config,
tracer_data)` with fault injection.

Order of events in the source: build the checkpoint dict (calling
`agent_state.model_dump(mode='json')`), open and write the temporary file,
atomically rename it onto the checkpoint path, then log
`agent_state.iteration`.  The whole body is inside a `try` whose `except`
clause catches `(OSError, RuntimeError, TypeError, ValueError)` and swallows
the exception; any other exception (e.g. `AttributeError` from a state object
without `model_dump` or without `iteration`) propagates. -/
def save_checkpoint (st : FsState) (agent_state : AgentState)
    (scan_config : List (String × Json))
    (tracer_data : Option (List (String × Json)))
    (now : String) (fault : IOFault) : PyRun :=
  match agent_state.model_dump with
  | .error e =>
    { state := st, raised := if savCatches e then none else some e }
  | .ok dump =>
    let payload := build_checkpoint now scan_config dump tracer_data
    match fault with
    | .openTempFail =>
      { state := st, raised := none }
    | .writeFail leftover e =>
      { state := { st with temp_file := some leftover },
        raised := if savCatches e then none else some e }
    | .renameFail =>
      { state := { st with temp_file := some (.valid payload) },
        raised := none }
    | .ok =>
      { state := { checkpoint_file := some (.valid payload), temp_file := none },
        raised := if agent_state.has_iteration then none
                  else some .attributeError }

/-- Point at which the process is killed during `save_checkpoint` (no
exception is raised — execution simply stops). -/
inductive InterruptPoint where
  | beforeTempWrite
  | midTempWrite (leftover : FileData)
  | afterTempWrite

/-- Filesystem state left behind when the process is killed during
`save_checkpoint` at the given point, before the rename has executed:
nothing written yet, the temporary file holding a half-written payload, or
the temporary file fully written but not yet renamed.  The rename itself is
a single atomic step, so these are all the reachable pre-rename states. -/
def save_killed_at (st : FsState) (payload : Json) : InterruptPoint → FsState
  | .beforeTempWrite => st
  | .midTempWrite leftover => { st with temp_file := some leftover }
  | .afterTempWrite => { st with temp_file := some (.valid payload) }

/-- Does this run of `save_checkpoint` reach and complete the rename?  The
rename executes exactly when `model_dump` succeeded and no filesystem fault
occurred before or at the rename. -/
def renameOccurred (agent_state : AgentState) (fault : IOFault) : Bool :=
  (match agent_state.model_dump with | .ok _ => true | .error _ => false)
    && (match fault with | .ok => true | _ => false)

/-- Embedding of `can_resume(run_dir, current_scan_config)`.

Delegates to `load_checkpoint` (outside any `try`: an exception from it, or
from the dict operations below, propagates).  Returns false for a missing or
falsy checkpoint, then for `agent_state.get("completed", False)` truthy, then
for a target-count mismatch between `scan_config.get("targets", [])` of the
checkpoint and of `current_scan_config`; true otherwise.
`current_scan_config` is typed `dict[str, Any]`, hence a genuine dict. -/
def can_resume (st : FsState)
    (current_scan_config : List (String × Json)) : Except PyErr Bool :=
  match load_checkpoint st with
  | .error e => .error e
  | .ok none => .ok false
  | .ok (some checkpoint) =>
    if !pyTruthy checkpoint then .ok false
    else
      match pyGet checkpoint "agent_state" (.obj []) with
      | .error e => .error e
      | .ok agent_state_data =>
        match pyGet agent_state_data "completed" (.bool false) with
        | .error e => .error e
        | .ok completed =>
          if pyTruthy completed then .ok false
          else
            match pyGet checkpoint "scan_config" (.obj []) with
            | .error e => .error e
            | .ok saved_config =>
              match pyGet saved_config "targets" (.arr []) with
              | .error e => .error e
              | .ok saved_targets =>
                let current_targets :=
                  (dictGet current_scan_config "targets").getD (.arr [])
                match pyLen saved_targets with
                | .error e => .error e
                | .ok n_saved =>
                  match pyLen current_targets with
                  | .error e => .error e
                  | .ok n_current =>
                    if n_saved ≠ n_current then .ok false else .ok true

/-- Embedding of `delete_checkpoint(run_dir)`.  If the checkpoint file
exists it is unlinked; `unlinkFails` injects an `OSError` from `unlink`,
which the `except OSError` clause catches and logs.  The function never
propagates an exception. -/
def delete_checkpoint (st : FsState) (unlinkFails : Bool) : PyRun :=
  match st.checkpoint_file with
  | none => { state := st, raised := none }
  | some _ =>
    if unlinkFails then { state := st, raised := none }
    else { state := { st with checkpoint_file := none }, raised := none }

/-! Concrete sample data used by the witnesses below. -/

/-- An agent state whose serialization succeeds. -/
def sampleAgent : AgentState :=
  ⟨.ok (.obj [("completed", .bool false)]), true⟩

/-- A well-formed, not-completed checkpoint dict with one target. -/
def sampleEntries : List (String × Json) :=
  [("version", .num 1),
   ("scan_config", .obj [("targets", .arr [.str "a.com"])]),
   ("agent_state", .obj [("completed", .bool false)])]

/-- A run directory holding `sampleEntries` as its checkpoint. -/
def sampleState : FsState :=
  ⟨some (.valid (.obj sampleEntries)), none⟩

/-- A well-formed checkpoint dict whose agent state is completed. -/
def completedEntries : List (String × Json) :=
  [("version", .num 1),
   ("scan_config", .obj []),
   ("agent_state", .obj [("completed", .bool true)])]

/-- A run directory holding `completedEntries` as its checkpoint. -/
def completedState : FsState :=
  ⟨some (.valid (.obj completedEntries)), none⟩

/-- A well-formed checkpoint dict with no `completed` and no `targets` keys. -/
def bareEntries : List (String × Json) :=
  [("version", .num 1), ("scan_config", .obj []), ("agent_state", .obj [])]

/-- A run directory holding `bareEntries` as its checkpoint. -/
def bareState : FsState :=
  ⟨some (.valid (.obj bareEntries)), none⟩

/-- A current scan configuration with one target differing in content from
the one in `sampleEntries`. -/
def otherConfig : List (String × Json) :=
  [("targets", .arr [.str "b.com"])]

/-! Helper lemmas shared by the claim theorems. -/

/-- Auxiliary: `load_checkpoint` reads only the checkpoint path, so a state
change that leaves `checkpoint.json` untouched leaves its result
untouched. -/
theorem load_checkpoint_congr (s₁ s₂ : FsState)
    (h : s₁.checkpoint_file = s₂.checkpoint_file) :
    load_checkpoint s₁ = load_checkpoint s₂ := by
  unfold load_checkpoint
  rw [h]

/-- Auxiliary: the version test passes exactly for the integer `1` and for
the boolean `true` (Python `True == 1`). -/
theorem versionMismatch_eq_false_iff (o : Option Json) :
    versionMismatch o = false ↔
      o = some (.num CHECKPOINT_VERSION) ∨ o = some (.bool true) := by
  cases o with
  | none => simp [versionMismatch]
  | some v =>
    cases v with
    | num n =>
      simp only [versionMismatch, bne_eq_false_iff_eq]
      constructor
      · intro h; exact Or.inl (by rw [h])
      · rintro (h | h) <;> simp_all
    | bool b => cases b <;> simp [versionMismatch, CHECKPOINT_VERSION]
    | _ => simp [versionMismatch]

/-! Claim theorems. -/

/-- C1: if `save_checkpoint` fails at any point before the rename of the
temporary file onto the checkpoint path — a serialization error, an open or
write error, a rename error, or the process being killed at any point before
the rename — the content of the checkpoint file is unchanged, and a
subsequent `load_checkpoint` returns exactly what it would have returned
before the failed save. -/
theorem save_failure_preserves_prior_checkpoint
    (st : FsState) (agent_state : AgentState)
    (scan_config : List (String × Json))
    (tracer_data : Option (List (String × Json)))
    (now : String) (fault : IOFault)
    (h : renameOccurred agent_state fault = false) :
    ((save_checkpoint st agent_state scan_config tracer_data now fault).state.checkpoint_file
        = st.checkpoint_file
      ∧ load_checkpoint
          (save_checkpoint st agent_state scan_config tracer_data now fault).state
        = load_checkpoint st)
    ∧ ∀ (payload : Json) (p : InterruptPoint),
        (save_killed_at st payload p).checkpoint_file = st.checkpoint_file
        ∧ load_checkpoint (save_killed_at st payload p) = load_checkpoint st := by
  constructor
  · have hcp : (save_checkpoint st agent_state scan_config tracer_data
        now fault).state.checkpoint_file = st.checkpoint_file := by
      cases hd : agent_state.model_dump with
      | error e => simp [save_checkpoint, hd]
      | ok dump =>
        cases fault with
        | ok => simp [renameOccurred, hd] at h
        | openTempFail => simp [save_checkpoint, hd]
        | writeFail leftover e => simp [save_checkpoint, hd]
        | renameFail => simp [save_checkpoint, hd]
    exact ⟨hcp, load_checkpoint_congr _ _ hcp⟩
  · intro payload p
    have hcp : (save_killed_at st payload p).checkpoint_file
        = st.checkpoint_file := by
      cases p <;> rfl
    exact ⟨hcp, load_checkpoint_congr _ _ hcp⟩

/-- Witness for C1: a failing rename on a directory holding a prior valid
checkpoint leaves the checkpoint file and the result of loading it
unchanged. -/
theorem save_failure_preserves_prior_checkpoint_witness :
    renameOccurred sampleAgent IOFault.renameFail = false
    ∧ ((save_checkpoint sampleState sampleAgent [] none "t"
          IOFault.renameFail).state.checkpoint_file = sampleState.checkpoint_file
      ∧ load_checkpoint
          (save_checkpoint sampleState sampleAgent [] none "t" IOFault.renameFail).state
        = load_checkpoint sampleState) :=
  ⟨rfl, (save_failure_preserves_prior_checkpoint sampleState sampleAgent [] none
    "t" IOFault.renameFail rfl).1⟩

/-- C2: for an agent state whose serialization succeeds (is
JSON-representable) and any scan configuration, a fault-free
`save_checkpoint` followed by `load_checkpoint` yields a checkpoint (not
`None`) whose `scan_config` entry is the original configuration and whose
`agent_state` entry is the serialized snapshot of the original state. -/
theorem save_load_round_trip
    (st : FsState) (agent_state : AgentState)
    (scan_config : List (String × Json))
    (tracer_data : Option (List (String × Json)))
    (now : String) (dump : Json)
    (h : agent_state.model_dump = .ok dump) :
    ∃ entries,
      load_checkpoint
          (save_checkpoint st agent_state scan_config tracer_data now IOFault.ok).state
        = .ok (some (.obj entries))
      ∧ dictGet entries "scan_config" = some (.obj scan_config)
      ∧ dictGet entries "agent_state" = some dump := by
  refine ⟨[("version", .num CHECKPOINT_VERSION), ("created_at", .str now),
           ("scan_config", .obj scan_config), ("agent_state", dump),
           ("tracer_data", .obj (tracer_data.getD []))], ?_, ?_, ?_⟩
  · simp [save_checkpoint, h, build_checkpoint, load_checkpoint, versionMismatch,
      dictGet, CHECKPOINT_VERSION]
  · rfl
  · rfl

/-- Witness for C2: saving `sampleAgent` with a one-target configuration and
loading back returns that configuration and snapshot. -/
theorem save_load_round_trip_witness :
    sampleAgent.model_dump = .ok (.obj [("completed", .bool false)])
    ∧ ∃ entries,
        load_checkpoint
            (save_checkpoint ⟨none, none⟩ sampleAgent
              [("targets", .arr [.str "a.com"])] none "t" IOFault.ok).state
          = .ok (some (.obj entries))
        ∧ dictGet entries "scan_config"
            = some (.obj [("targets", .arr [.str "a.com"])])
        ∧ dictGet entries "agent_state" = some (.obj [("completed", .bool false)]) :=
  ⟨rfl, save_load_round_trip ⟨none, none⟩ sampleAgent
    [("targets", .arr [.str "a.com"])] none "t" (.obj [("completed", .bool false)]) rfl⟩

/-- C3 (code bug): the claim says `load_checkpoint` never raises, but on a
checkpoint file holding well-formed JSON whose top-level value is not an
object — here the list `[1, 2, 3]` — `checkpoint.get("version")` raises
`AttributeError`, which is not in the caught tuple
`(OSError, json.JSONDecodeError, KeyError, TypeError)` and propagates to the
caller, contradicting the function's own docstring
("Returns None on any error"). -/
theorem load_checkpoint_raises_on_nonobject_json :
    load_checkpoint ⟨some (.valid (.arr [.num 1, .num 2, .num 3])), none⟩
      = .error .attributeError := rfl

/-- C4 (code bug): the claim says `save_checkpoint` never raises, but when
`agent_state` does not support the snapshot interface (e.g. `None`, which
has no `model_dump` attribute), the resulting `AttributeError` is not in the
caught tuple `(OSError, RuntimeError, TypeError, ValueError)` and propagates
to the caller, contradicting the function's own docstring
("Fails silently if save fails"). -/
theorem save_checkpoint_raises_without_model_dump :
    (save_checkpoint ⟨none, none⟩ ⟨.error .attributeError, true⟩ [] none
      "2026-01-01T00:00:00+00:00" IOFault.ok).raised
      = some .attributeError := rfl

/-- C5 (code bug): the claim says `can_resume` never raises, but
`load_checkpoint` accepts a checkpoint whose `agent_state` value is a string
(it checks only key presence, not value shape), and then
`agent_state_data.get("completed", False)` in `can_resume` — which has no
`try` block at all — raises `AttributeError`. -/
theorem can_resume_raises_on_string_agent_state :
    can_resume
      ⟨some (.valid (.obj [("version", .num 1), ("scan_config", .obj []),
        ("agent_state", .str "resumed")])), none⟩ []
      = .error .attributeError := rfl

/-- C6: `load_checkpoint` returns a checkpoint only when its `version` entry
passes the Python test `version != CHECKPOINT_VERSION` negated — i.e. equals
the integer `1` (or Python-equal `True`) — and both `scan_config` and
`agent_state` keys are present; a version of `0` or `2` is rejected with the
absent result (no migration is attempted), as is a missing required key. -/
theorem load_checkpoint_version_gate
    (st : FsState) (j : Json)
    (h : load_checkpoint st = .ok (some j)) :
    (∃ entries, j = .obj entries
        ∧ (dictGet entries "version" = some (.num CHECKPOINT_VERSION)
            ∨ dictGet entries "version" = some (.bool true))
        ∧ (dictGet entries "scan_config").isSome
        ∧ (dictGet entries "agent_state").isSome)
    ∧ (∀ (entries : List (String × Json)) (t : Option FileData),
        (dictGet entries "version" = some (.num 0)
          ∨ dictGet entries "version" = some (.num 2)) →
        load_checkpoint ⟨some (.valid (.obj entries)), t⟩ = .ok none)
    ∧ (∀ (entries : List (String × Json)) (t : Option FileData),
        (dictGet entries "scan_config" = none
          ∨ dictGet entries "agent_state" = none) →
        load_checkpoint ⟨some (.valid (.obj entries)), t⟩ = .ok none) := by
  refine ⟨?_, ?_, ?_⟩
  · obtain ⟨cp, tmp⟩ := st
    cases cp with
    | none => simp [load_checkpoint] at h
    | some fd =>
      cases fd with
      | unreadable => simp [load_checkpoint] at h
      | invalid => simp [load_checkpoint] at h
      | valid content =>
        cases content with
        | obj entries =>
          have h2 : (if versionMismatch (dictGet entries "version")
                then (Except.ok none : Except PyErr (Option Json))
              else if ((dictGet entries "scan_config").isNone
                  || (dictGet entries "agent_state").isNone) then .ok none
              else .ok (some (.obj entries))) = .ok (some j) := h
          cases hvv : versionMismatch (dictGet entries "version") with
          | true => simp [hvv] at h2
          | false =>
            simp only [hvv, Bool.false_eq_true, if_false] at h2
            cases hmm : ((dictGet entries "scan_config").isNone
                || (dictGet entries "agent_state").isNone) with
            | true => simp [hmm] at h2
            | false =>
              simp only [hmm, Bool.false_eq_true, if_false] at h2
              have hj : Json.obj entries = j := by simpa using h2
              have hkeys := Bool.or_eq_false_iff.mp hmm
              refine ⟨entries, hj.symm, (versionMismatch_eq_false_iff _).mp hvv,
                ?_, ?_⟩
              · cases hsc : dictGet entries "scan_config" with
                | none => rw [hsc] at hkeys; simp at hkeys
                | some v => simp
              · cases has : dictGet entries "agent_state" with
                | none => rw [has] at hkeys; simp at hkeys
                | some v => simp
        | null => simp [load_checkpoint] at h
        | bool b => simp [load_checkpoint] at h
        | num n => simp [load_checkpoint] at h
        | str s => simp [load_checkpoint] at h
        | arr elems => simp [load_checkpoint] at h
  · intro entries t hv
    rcases hv with hv | hv <;>
      simp [load_checkpoint, versionMismatch, hv, CHECKPOINT_VERSION]
  · intro entries t hm
    unfold load_checkpoint
    by_cases hv : versionMismatch (dictGet entries "version") = true
    · simp [hv]
    · rcases hm with hm | hm <;> simp [hv, hm]

/-- Witness for C6: the sample checkpoint is returned by `load_checkpoint`
and indeed carries version 1 and both required keys. -/
theorem load_checkpoint_version_gate_witness :
    load_checkpoint sampleState = .ok (some (.obj sampleEntries))
    ∧ ∃ entries, Json.obj sampleEntries = .obj entries
        ∧ (dictGet entries "version" = some (.num CHECKPOINT_VERSION)
            ∨ dictGet entries "version" = some (.bool true))
        ∧ (dictGet entries "scan_config").isSome
        ∧ (dictGet entries "agent_state").isSome :=
  ⟨rfl, (load_checkpoint_version_gate sampleState (.obj sampleEntries) rfl).1⟩

/-- C7: when the checkpoint is valid (accepted by `load_checkpoint`) and its
embedded agent state has `completed = true`, `can_resume` returns false for
every `current_scan_config`. -/
theorem can_resume_completed_gate
    (st : FsState) (entries asd : List (String × Json))
    (current : List (String × Json))
    (hload : load_checkpoint st = .ok (some (.obj entries)))
    (hasd : dictGet entries "agent_state" = some (.obj asd))
    (hcomp : dictGet asd "completed" = some (.bool true)) :
    can_resume st current = .ok false := by
  cases entries with
  | nil => simp [dictGet] at hasd
  | cons e rest =>
    unfold can_resume
    rw [hload]
    simp [pyTruthy, pyGet, hasd, hcomp]

/-- Witness for C7: a completed checkpoint is never resumed. -/
theorem can_resume_completed_gate_witness :
    load_checkpoint completedState = .ok (some (.obj completedEntries))
    ∧ dictGet completedEntries "agent_state"
        = some (.obj [("completed", .bool true)])
    ∧ dictGet [("completed", Json.bool true)] "completed" = some (.bool true)
    ∧ can_resume completedState [] = .ok false :=
  ⟨rfl, rfl, rfl,
    can_resume_completed_gate completedState completedEntries
      [("completed", .bool true)] [] rfl rfl rfl⟩

/-- C8: for a valid, not-completed checkpoint whose saved `targets` and the
current configuration's `targets` are both lists, `can_resume` returns false
exactly when the two lists have different lengths, and true exactly when the
lengths are equal — the contents of the targets are never compared. -/
theorem can_resume_target_count
    (st : FsState) (entries asd scfg : List (String × Json))
    (ts cs : List Json) (current : List (String × Json))
    (hload : load_checkpoint st = .ok (some (.obj entries)))
    (hasd : dictGet entries "agent_state" = some (.obj asd))
    (hcomp : pyTruthy ((dictGet asd "completed").getD (.bool false)) = false)
    (hscfg : dictGet entries "scan_config" = some (.obj scfg))
    (hts : dictGet scfg "targets" = some (.arr ts))
    (hcs : dictGet current "targets" = some (.arr cs)) :
    (can_resume st current = .ok false ↔ ts.length ≠ cs.length)
    ∧ (can_resume st current = .ok true ↔ ts.length = cs.length) := by
  cases entries with
  | nil => simp [dictGet] at hasd
  | cons e rest =>
    have key : can_resume st current
        = if ts.length ≠ cs.length then .ok false else .ok true := by
      have htr : pyTruthy (Json.obj (e :: rest)) = true := rfl
      unfold can_resume
      rw [hload]
      simp [htr, pyGet, pyLen, hasd, hcomp, hscfg, hts, hcs]
    by_cases hlen : ts.length = cs.length
    · rw [key, if_neg (fun hne => hne hlen)]
      refine ⟨⟨fun hf => absurd hf (by simp), fun hne => absurd hlen hne⟩,
              ⟨fun _ => hlen, fun _ => rfl⟩⟩
    · rw [key, if_pos hlen]
      exact ⟨⟨fun _ => hlen, fun _ => rfl⟩,
             ⟨fun ht => absurd ht (by simp), fun he => absurd he hlen⟩⟩

/-- Witness for C8: saved targets `["a.com"]` and current targets `["b.com"]`
have equal length, so `can_resume` answers true despite differing target
content. -/
theorem can_resume_target_count_witness :
    load_checkpoint sampleState = .ok (some (.obj sampleEntries))
    ∧ dictGet sampleEntries "agent_state" = some (.obj [("completed", .bool false)])
    ∧ pyTruthy ((dictGet [("completed", Json.bool false)] "completed").getD
        (.bool false)) = false
    ∧ dictGet sampleEntries "scan_config"
        = some (.obj [("targets", .arr [.str "a.com"])])
    ∧ dictGet [("targets", Json.arr [Json.str "a.com"])] "targets"
        = some (.arr [.str "a.com"])
    ∧ dictGet otherConfig "targets" = some (.arr [.str "b.com"])
    ∧ can_resume sampleState otherConfig = .ok true :=
  ⟨rfl, rfl, rfl, rfl, rfl, rfl,
    (can_resume_target_count sampleState sampleEntries
      [("completed", .bool false)] [("targets", .arr [.str "a.com"])]
      [.str "a.com"] [.str "b.com"] otherConfig
      rfl rfl rfl rfl rfl rfl).2.mpr rfl⟩

/-- C9: `delete_checkpoint` never propagates an exception (even when
`unlink` raises `OSError`), removes the checkpoint file when it exists so a
subsequent load returns the absent result, is a no-op when the file is
absent, and is idempotent: deleting twice equals deleting once. -/
theorem delete_checkpoint_total_idempotent
    (st : FsState) (f : Bool) :
    (delete_checkpoint st f).raised = none
    ∧ (delete_checkpoint st false).state.checkpoint_file = none
    ∧ load_checkpoint (delete_checkpoint st false).state = .ok none
    ∧ (st.checkpoint_file = none → (delete_checkpoint st f).state = st)
    ∧ delete_checkpoint (delete_checkpoint st false).state false
        = delete_checkpoint st false := by
  obtain ⟨cp, tmp⟩ := st
  cases cp with
  | none => cases f <;> simp [delete_checkpoint, load_checkpoint]
  | some fd => cases f <;> simp [delete_checkpoint, load_checkpoint]

/-- Witness for C9: deleting on a run directory with no checkpoint file does
not raise and leaves the state unchanged, and deleting twice equals deleting
once. -/
theorem delete_checkpoint_total_idempotent_witness :
    (delete_checkpoint ⟨none, none⟩ true).raised = none
    ∧ (delete_checkpoint ⟨none, none⟩ false).state.checkpoint_file = none
    ∧ load_checkpoint (delete_checkpoint ⟨none, none⟩ false).state = .ok none
    ∧ (delete_checkpoint ⟨none, none⟩ true).state = ⟨none, none⟩
    ∧ delete_checkpoint (delete_checkpoint ⟨none, none⟩ false).state false
        = delete_checkpoint ⟨none, none⟩ false := by
  have h := delete_checkpoint_total_idempotent ⟨none, none⟩ true
  exact ⟨h.1, h.2.1, h.2.2.1, h.2.2.2.1 rfl, h.2.2.2.2⟩

/-- C10: implicit defaulting in `can_resume` — a missing `completed` key
defaults to `False` (not completed) and a missing `targets` key defaults to
`[]` in both the saved and the current configuration; a valid checkpoint
lacking all three therefore resumes (counts 0 = 0). -/
theorem can_resume_default_gates
    (st : FsState) (entries asd scfg current : List (String × Json))
    (hload : load_checkpoint st = .ok (some (.obj entries)))
    (hasd : dictGet entries "agent_state" = some (.obj asd))
    (hncomp : dictGet asd "completed" = none)
    (hscfg : dictGet entries "scan_config" = some (.obj scfg))
    (hnts : dictGet scfg "targets" = none)
    (hncur : dictGet current "targets" = none) :
    can_resume st current = .ok true := by
  cases entries with
  | nil => simp [dictGet] at hasd
  | cons e rest =>
    unfold can_resume
    rw [hload]
    simp [pyTruthy, pyGet, pyLen, hasd, hncomp, hscfg, hnts, hncur]

/-- Witness for C10: a valid checkpoint with no `completed` and no `targets`
keys anywhere yields `can_resume = true`. -/
theorem can_resume_default_gates_witness :
    load_checkpoint bareState = .ok (some (.obj bareEntries))
    ∧ dictGet bareEntries "agent_state" = some (.obj [])
    ∧ dictGet ([] : List (String × Json)) "completed" = none
    ∧ dictGet bareEntries "scan_config" = some (.obj [])
    ∧ dictGet ([] : List (String × Json)) "targets" = none
    ∧ can_resume bareState [] = .ok true :=
  ⟨rfl, rfl, rfl, rfl, rfl,
    can_resume_default_gates bareState bareEntries [] [] []
      rfl rfl rfl rfl rfl rfl⟩

end Checkpoint
